import Mathlib

/-!
Shallow embedding of the adaptive segment scheduling core of an HLS client
(`src/controller/stream-controller.ts`).  JS numbers are modelled as `ℚ`
(all arithmetic relevant to the claims is exact), mutable object state is
modelled as explicit state passing on plain structures, and the external
collaborators (BufferHelper, fragment finders, LevelHelper, the clock) are
passed in as explicit function parameters, mirroring the interfaces the
controller consumes.
-/

namespace Hls

/-- Fragment sequence number: a number, or the `'initSegment'` string tag. -/
inductive SN where
  | initSegment
  | num (n : Int)
deriving DecidableEq, Repr

/-- Numeric value of a sequence number (media fragments always carry a number;
for the init-segment tag the arithmetic paths that would hit JS `NaN` are
guarded by the callers modelled below). -/
def SN.val : SN → Int
  | .initSegment => 0
  | .num n => n

/-- JS `Number.isFinite(frag.sn)`: false exactly for the string tag. -/
def SN.isFiniteSN : SN → Bool
  | .initSegment => false
  | .num _ => true

/-- A playlist fragment (`src/loader/fragment.ts` as consumed by the
stream controller): identity, timing, and the mutable post-parse flags. -/
structure Fragment where
  sn : SN := .num 0
  level : Int := 0
  type : String := "main"
  cc : Int := 0
  start : ℚ := 0
  duration : ℚ := 0
  encrypted : Bool := false
  backtracked : Bool := false
  dropped : Int := 0
  deltaPTS : ℚ := 0
  endProgramDateTime : Option ℚ := none
  startPTS : ℚ := 0
  endPTS : ℚ := 0
  startDTS : ℚ := 0
  endDTS : ℚ := 0
  autoLevel : Bool := false
  bitrateTest : Bool := false
  hasLoader : Bool := false
  hasData : Bool := false
  esAudio : Bool := false
  esVideo : Bool := false
deriving DecidableEq, Repr

/-- Level playlist snapshot (`LevelDetails`). -/
structure LevelDetails where
  live : Bool := false
  PTSKnown : Bool := false
  hasProgramDateTime : Bool := false
  startSN : Int := 0
  endSN : Int := 0
  targetduration : ℚ := 0
  totalduration : ℚ := 0
  fragments : List Fragment := []
  initSegment : Option Fragment := none
deriving DecidableEq, Repr

/-- Per-quality-level info as the controller reads it (`levels[i]`). -/
structure LevelInfo where
  bitrate : ℚ := 0
  audioCodec : Option String := none
  videoCodec : Option String := none
  details : Option LevelDetails := none
deriving DecidableEq, Repr

/-- The slice of the media element the controller reads and writes. -/
structure Media where
  currentTime : ℚ := 0
  duration : ℚ := 0
  readyState : Int := 0
  paused : Bool := false
  seeking : Bool := false
deriving DecidableEq, Repr

/-- The configuration options the modelled code paths read. -/
structure SCConfig where
  fragLoadingMaxRetry : Nat := 6
  fragLoadingRetryDelay : ℚ := 1000
  fragLoadingMaxRetryTimeout : ℚ := 64000
  maxBufferLength : ℚ := 30
  maxMaxBufferLength : ℚ := 600
  maxBufferSize : ℚ := 60000000
  maxBufferHole : ℚ := 1/2
  maxFragLookUpTolerance : ℚ := 1/4
  liveSyncDuration : Option ℚ := none
  liveSyncDurationCount : ℚ := 3
  liveMaxLatencyDuration : Option ℚ := none
  liveMaxLatencyDurationCount : ℚ := 10
  initialLiveManifestSize : Nat := 1
  startFragPrefetch : Bool := false
deriving DecidableEq, Repr

/-- Fragment tracker lifecycle states (`src/controller/fragment-tracker.ts`). -/
inductive FragmentState where
  | NOT_LOADED
  | LOADING
  | PARTIAL
  | APPENDING
  | OK
deriving DecidableEq, Repr

/-- Modelled from the spec: the Fragment Tracker (its source is not under
`src/`) keyed by `(level, sn)`; untracked fragments are `NOT_LOADED`. -/
abbrev Tracker := List ((Int × SN) × FragmentState)

/-- Modelled from the spec: `fragmentTracker.getState(frag)`. -/
def trackerGetState (t : Tracker) (frag : Fragment) : FragmentState :=
  match t.lookup (frag.level, frag.sn) with
  | some s => s
  | none => .NOT_LOADED

/-- Modelled from the spec: `fragmentTracker.removeFragment(frag)`. -/
def trackerRemove (t : Tracker) (frag : Fragment) : Tracker :=
  t.filter (fun e => e.1 != (frag.level, frag.sn))

/-- Scheduler states (`base-stream-controller`'s `State` enumeration). -/
inductive SCState where
  | STOPPED
  | IDLE
  | KEY_LOADING
  | FRAG_LOADING
  | FRAG_LOADING_WAITING_RETRY
  | WAITING_LEVEL
  | PARSING
  | PARSED
  | BUFFER_FLUSHING
  | ENDED
  | ERROR
deriving DecidableEq, Repr

/-- Error details relevant to `onError` (`src/errors.ts` as consumed). -/
inductive ErrorDetails where
  | FRAG_LOAD_ERROR
  | FRAG_LOAD_TIMEOUT
  | KEY_LOAD_ERROR
  | KEY_LOAD_TIMEOUT
  | LEVEL_LOAD_ERROR
  | LEVEL_LOAD_TIMEOUT
  | BUFFER_FULL_ERROR
  | OTHER_ERROR
deriving DecidableEq, Repr

/-- The `ERROR` event payload as read and mutated by `onError`. -/
structure ErrorData where
  details : ErrorDetails
  fatal : Bool := false
  frag : Option Fragment := none
  parent : Option String := none
  levelRetry : Bool := false
deriving DecidableEq, Repr

/-- Result of `BufferHelper.bufferInfo`. -/
structure BufferInfo where
  start : ℚ := 0
  end_ : ℚ := 0
  len : ℚ := 0
  nextStart : Option ℚ := none
deriving DecidableEq, Repr

/-- Observable side effects: events triggered on the bus, load dispatches,
and media element commands. -/
inductive Effect where
  | keyLoading (sn : SN)
  | loadInitSegment (sn : SN)
  | loadBitrateTest (sn : SN)
  | loadForPlayback (sn : SN)
  | bufferEos
  | bufferFlushing (startOffset : ℚ) (endOffset : Option ℚ) (type : Option String)
  | bufferCodecs
  | bufferAppending (type : String) (content : String)
  | fragParsingInitSegment
  | initPtsFound
  | fragParsingMetadata
  | fragParsingUserdata
  | levelPtsUpdated
  | mediaPause
  | mediaPlay
  | abortFragLoader (sn : SN)
deriving DecidableEq, Repr

/-- The mutable state of the stream controller (fields of
`StreamController` and of its base class that the modelled paths touch,
plus the `hls` handles it reads). `config` is included because the source
mutates `config.maxMaxBufferLength` in place. -/
structure SC where
  config : SCConfig := {}
  state : SCState := .STOPPED
  level : Int := -1
  nextLoadLevel : Int := 0
  autoLevelEnabled : Bool := false
  levels : Option (List LevelInfo) := none
  levelLastLoaded : Option Int := none
  media : Option Media := none
  fragCurrent : Option Fragment := none
  fragPrevious : Option Fragment := none
  fragLoadError : Nat := 0
  retryDate : ℚ := 0
  nextLoadPosition : ℚ := 0
  startPosition : ℚ := 0
  loadedmetadata : Bool := false
  startFragRequested : Bool := false
  bitrateTest : Bool := false
  immediateSwitch : Bool := false
  previouslyPaused : Bool := false
  altAudio : Bool := false
  liveSyncPosition : Option ℚ := none
  fragmentTracker : Tracker := []
  appended : Bool := false
  pendingBuffering : Bool := false
  audioCodecSwap : Bool := false
  audioCodecSwitch : Bool := false
deriving DecidableEq, Repr

/-- Timing fields written back into a fragment by
`LevelHelper.updateFragPTSDTS` (whose source is not under `src/`). -/
structure FragTiming where
  startPTS : ℚ := 0
  endPTS : ℚ := 0
  startDTS : ℚ := 0
  endDTS : ℚ := 0
  duration : ℚ := 0
  deltaPTS : ℚ := 0
deriving DecidableEq, Repr

/-- Parsed track payload of a remux result as consumed by
`_handleTransmuxComplete` / `_updateTiming` / `_bufferFragmentData`. -/
structure TrackData where
  type : String := "video"
  startPTS : ℚ := 0
  endPTS : Option ℚ := none
  startDTS : ℚ := 0
  endDTS : Option ℚ := none
  dropped : Int := 0
  hasAudio : Bool := false
  hasVideo : Bool := false
  data1len : Nat := 0
  data2len : Nat := 0
deriving DecidableEq, Repr

/-- External collaborators consumed by the controller, passed by handle:
buffer inspection, fragment finders and PTS bookkeeping live outside
`src/` and are universally quantified in the theorems below. -/
structure Collab where
  bufferInfo : ℚ → ℚ → BufferInfo
  isBuffered : ℚ → Bool
  streamEnded : BufferInfo → LevelDetails → Bool
  findFragmentByPTS : Option Fragment → List Fragment → ℚ → ℚ → Option Fragment
  findFragmentByPDT : List Fragment → Option ℚ → ℚ → Option Fragment
  updateFragPTSDTS : LevelDetails → Fragment → ℚ → ℚ → ℚ → ℚ → LevelDetails × FragTiming × ℚ

/-- JS array indexing with a possibly negative index: `fragments[i]`. -/
def listGetInt (l : List Fragment) (i : Int) : Option Fragment :=
  if 0 ≤ i then l.get? i.toNat else none

/-- Write back a mutated fragment object at a (possibly negative) index;
out-of-range writes are no-ops, matching the aliasing model used below. -/
def listSetInt (l : List Fragment) (i : Int) (f : Fragment) : List Fragment :=
  if 0 ≤ i then l.set i.toNat f else l

/-- `_reduceMaxBufferLength(minLength)`: halve `config.maxMaxBufferLength`
when it is at least `minLength`; report whether a reduction happened. -/
def _reduceMaxBufferLength (config : SCConfig) (minLength : ℚ) : SCConfig × Bool :=
  if config.maxMaxBufferLength ≥ minLength then
    ({ config with maxMaxBufferLength := config.maxMaxBufferLength / 2 }, true)
  else
    (config, false)

/-- `flushMainBuffer(startOffset, endOffset)`: enter `BUFFER_FLUSHING` and
trigger `BUFFER_FLUSHING` (`endOffset = none` models `+∞`; the scope gets
`type: 'video'` when alternate audio is active). -/
def flushMainBuffer (sc : SC) (startOffset : ℚ) (endOffset : Option ℚ) : SC × List Effect :=
  ({ sc with state := .BUFFER_FLUSHING },
   [Effect.bufferFlushing startOffset endOffset (if sc.altAudio then some "video" else none)])

/-- `computeLivePosition(sliding, levelDetails)`. -/
def computeLivePosition (config : SCConfig) (sliding : ℚ) (levelDetails : LevelDetails) : ℚ :=
  let targetLatency := match config.liveSyncDuration with
    | some v => v
    | none => config.liveSyncDurationCount * levelDetails.targetduration
  sliding + max 0 (levelDetails.totalduration - targetLatency)

/-- The fragment `onError` resolves: `data.frag || this.fragCurrent`. -/
def errorFragOf (sc : SC) (data : ErrorData) : Option Fragment :=
  match data.frag with
  | some f => some f
  | none => sc.fragCurrent

/-- The `mediaBuffered` probe of `onError`: the current position buffered,
with a 0.5 s tolerance, as some browsers stall before the buffered end. -/
def scMediaBuffered (collab : Collab) (sc : SC) : Bool :=
  match sc.media with
  | some m => collab.isBuffered m.currentTime && collab.isBuffered (m.currentTime + 1/2)
  | none => false

/-- `onError(data)`: the error handler of the stream controller. `now` is
`window.performance.now()`; the media-buffered probe around `currentTime`
uses the collaborator's `isBuffered`. Returns the new controller state,
the (possibly escalated) event payload, and the triggered effects. -/
def onError (collab : Collab) (sc : SC) (data : ErrorData) (now : ℚ) : SC × ErrorData × List Effect :=
  let fragNotMain : Bool := match errorFragOf sc data with
    | some f => f.type != "main"
    | none => false
  if fragNotMain then (sc, data, [])
  else
    let mediaBuffered : Bool := scMediaBuffered collab sc
    match data.details with
    | .FRAG_LOAD_ERROR | .FRAG_LOAD_TIMEOUT | .KEY_LOAD_ERROR | .KEY_LOAD_TIMEOUT =>
      if data.fatal then (sc, data, [])
      else
        if sc.fragLoadError + 1 ≤ sc.config.fragLoadingMaxRetry then
          let delay : ℚ := min ((2 : ℚ) ^ sc.fragLoadError * sc.config.fragLoadingRetryDelay)
            sc.config.fragLoadingMaxRetryTimeout
          let sc1 := { sc with retryDate := now + delay }
          let sc2 :=
            if sc1.loadedmetadata then sc1
            else { sc1 with startFragRequested := false, nextLoadPosition := sc1.startPosition }
          ({ sc2 with fragLoadError := sc2.fragLoadError + 1, state := .FRAG_LOADING_WAITING_RETRY },
           data, [])
        else
          ({ sc with state := .ERROR }, { data with fatal := true }, [])
    | .LEVEL_LOAD_ERROR | .LEVEL_LOAD_TIMEOUT =>
      if sc.state = .ERROR then (sc, data, [])
      else if data.fatal then ({ sc with state := .ERROR }, data, [])
      else if ¬data.levelRetry ∧ sc.state = .WAITING_LEVEL then
        ({ sc with state := .IDLE }, data, [])
      else (sc, data, [])
    | .BUFFER_FULL_ERROR =>
      if data.parent = some "main" ∧ (sc.state = .PARSING ∨ sc.state = .PARSED) then
        if mediaBuffered then
          let r := _reduceMaxBufferLength sc.config sc.config.maxBufferLength
          ({ sc with config := r.1, state := .IDLE }, data, [])
        else
          let sc1 := { sc with fragCurrent := none }
          let r := flushMainBuffer sc1 0 none
          (r.1, data, r.2)
      else (sc, data, [])
    | .OTHER_ERROR => (sc, data, [])

/-- JS `Math.round` on the nonnegative values used here: round half up. -/
def jsRound (q : ℚ) : Int := ⌊q + 1/2⌋

/-- Modelled from the spec: `BinarySearch.search` (`src/utils/binary-search`,
not under `src/`): classic binary search driven by a three-way comparator,
descending on the half the comparator points to and returning an element on
which the comparator yields 0, or none.  The fuel argument bounds the loop;
`list.length + 1` always suffices since the interval shrinks each step. -/
def binarySearchAux (list : List Fragment) (comparisonFn : Fragment → Int) :
    Int → Int → Nat → Option Fragment
  | _, _, 0 => none
  | minIndex, maxIndex, fuel + 1 =>
    if minIndex ≤ maxIndex then
      let currentIndex := (minIndex + maxIndex) / 2
      match listGetInt list currentIndex with
      | none => none
      | some currentElement =>
        if comparisonFn currentElement > 0 then
          binarySearchAux list comparisonFn (currentIndex + 1) maxIndex fuel
        else if comparisonFn currentElement < 0 then
          binarySearchAux list comparisonFn minIndex (currentIndex - 1) fuel
        else some currentElement
    else none

/-- Modelled from the spec: entry point of `BinarySearch.search`. -/
def binarySearchSearch (list : List Fragment) (comparisonFn : Fragment → Int) : Option Fragment :=
  binarySearchAux list comparisonFn 0 ((list.length : Int) - 1) (list.length + 1)

/-- The live-switch binary-search comparator exactly as written in the
source.  The source's second test is `fragPrevious < frag.cc`: a JS `<`
between the fragment object and a number coerces the object to `NaN`, so
that test is always false and the branch returning `-1` is unreachable. -/
def liveCCComparator (fragPrevious : Fragment) (frag : Fragment) : Int :=
  if fragPrevious.cc > frag.cc then 1
  else if False then -1
  else 0

/-- The comparator as the spec requires it to read (`fragPrevious.cc`
compared with `frag.cc`); stated from the spec's words, for comparison
with `liveCCComparator` above. -/
def liveCCComparatorSpec (fragPrevious : Fragment) (frag : Fragment) : Int :=
  if fragPrevious.cc > frag.cc then 1
  else if fragPrevious.cc < frag.cc then -1
  else 0

/-- The catch-up threshold of `_ensureFragmentAtLivePoint`:
`liveMaxLatencyDuration` when defined, else
`liveMaxLatencyDurationCount · targetduration`. -/
def liveMaxLatency (config : SCConfig) (levelDetails : LevelDetails) : ℚ :=
  match config.liveMaxLatencyDuration with
  | some v => v
  | none => config.liveMaxLatencyDurationCount * levelDetails.targetduration

/-- The catch-up step itself: adopt the recomputed live sync position as
`bufferEnd` and `nextLoadPosition`, and move `media.currentTime` when the
media is ready and long enough. -/
def liveCatchUp (sc : SC) (levelDetails : LevelDetails) (bufferEnd start end_ : ℚ) : SC × ℚ :=
  let maxLatency : ℚ := liveMaxLatency sc.config levelDetails
  if bufferEnd < max (start - sc.config.maxFragLookUpTolerance) (end_ - maxLatency) then
    let liveSyncPosition := computeLivePosition sc.config start levelDetails
    let sc1 := { sc with liveSyncPosition := some liveSyncPosition }
    let sc2 := match sc1.media with
      | some m =>
        if m.readyState ≠ 0 ∧ m.duration > liveSyncPosition then
          { sc1 with media := some { m with currentTime := liveSyncPosition } }
        else sc1
      | none => sc1
    ({ sc2 with nextLoadPosition := liveSyncPosition }, liveSyncPosition)
  else (sc, bufferEnd)

/-- Outcome of `_ensureFragmentAtLivePoint`: the source distinguishes an
explicit `null` (abort the tick) from an undefined `frag` (fall through to
`_findFragment`). -/
inductive LivePointResult where
  | explicitNull
  | undef
  | found (f : Fragment)
deriving DecidableEq, Repr

/-- `_ensureFragmentAtLivePoint(levelDetails, bufferEnd, start, end,
fragPrevious, fragments, fragLen)`. -/
def _ensureFragmentAtLivePoint (collab : Collab) (sc0 : SC) (levelDetails : LevelDetails)
    (bufferEnd0 start end_ : ℚ) (fragPrevious : Option Fragment)
    (fragments : List Fragment) (fragLen : Nat) : SC × LivePointResult :=
  let r := liveCatchUp sc0 levelDetails bufferEnd0 start end_
  let sc := r.1
  let bufferEnd := r.2
  let mediaReady : Bool := match sc.media with
    | some m => m.readyState != 0
    | none => false
  -- if end of buffer greater than live edge, don't load any fragment
  if levelDetails.PTSKnown ∧ bufferEnd > end_ ∧ mediaReady then (sc, .explicitNull)
  else
    if sc.startFragRequested ∧ ¬levelDetails.PTSKnown then
      let fragA : Option Fragment := match fragPrevious with
        | none => none
        | some prev =>
          if levelDetails.hasProgramDateTime then
            collab.findFragmentByPDT fragments prev.endProgramDateTime
              sc.config.maxFragLookUpTolerance
          else
            let fragB : Option Fragment := match prev.sn with
              | .num n =>
                let targetSN := n + 1
                if levelDetails.startSN ≤ targetSN ∧ targetSN ≤ levelDetails.endSN then
                  match listGetInt fragments (targetSN - levelDetails.startSN) with
                  | some fragNext => if prev.cc = fragNext.cc then some fragNext else none
                  | none => none
                else none
              -- a string `sn` makes JS `targetSN` a non-numeric string whose
              -- range comparisons against the SN bounds are all false
              | .initSegment => none
            match fragB with
            | some f => some f
            | none => binarySearchSearch fragments (liveCCComparator prev)
      match fragA with
      | some f => (sc, .found f)
      | none =>
        -- no idea which fragment to load: take the middle one
        match listGetInt fragments (min ((fragLen : Int) - 1) (jsRound ((fragLen : ℚ) / 2))) with
        | some f => (sc, .found f)
        | none => (sc, .undef)
    else (sc, .undef)

/-- The give-up/step-back arm of `_findFragment`'s backtracked branch:
reset the chosen fragment's dropped count (the fragment object sits at
index `curSNIdx` of the playlist, per the level invariant, so the playlist
copy is updated too), then step back to the predecessor and mark it
backtracked; with no predecessor and a truthy `curSNIdx` return none, and
with `curSNIdx == 0` (falsy) the chosen fragment itself stays selected. -/
def findFragmentBacktrackStep (fragments : List Fragment) (frag : Fragment)
    (curSNIdx : Int) (prevFrag : Option Fragment) : List Fragment × Option Fragment :=
  let frag1 := { frag with dropped := 0 }
  let fragments1 := listSetInt fragments curSNIdx frag1
  match prevFrag with
  | some pf =>
    let pf1 := { pf with backtracked := true }
    (listSetInt fragments1 (curSNIdx - 1) pf1, some pf1)
  | none =>
    if curSNIdx ≠ 0 then (fragments1, none) else (fragments1, some frag1)

/-- `_findFragment(start, fragPrevious, fragLen, fragments, bufferEnd, end,
levelDetails)`: PTS-based choice plus the same-SN adjustment.  Returns the
(possibly mutated) playlist together with the chosen fragment. -/
def _findFragment (collab : Collab) (config : SCConfig) (start : ℚ)
    (fragPrevious : Option Fragment) (fragLen : Nat) (fragments : List Fragment)
    (bufferEnd end_ : ℚ) (levelDetails : LevelDetails) : List Fragment × Option Fragment :=
  let frag0 : Option Fragment :=
    if bufferEnd < end_ then
      -- remove the tolerance if it would put bufferEnd past the end of stream
      let lookupTolerance : ℚ :=
        if bufferEnd > end_ - config.maxFragLookUpTolerance then 0
        else config.maxFragLookUpTolerance
      collab.findFragmentByPTS fragPrevious fragments bufferEnd lookupTolerance
    else
      -- reached the end of the playlist
      listGetInt fragments ((fragLen : Int) - 1)
  match frag0 with
  | none => (fragments, none)
  | some frag =>
    let curSNIdx : Int := frag.sn.val - levelDetails.startSN
    let sameLevel : Bool := match fragPrevious with
      | some p => frag.level == p.level
      | none => false
    let prevFrag := listGetInt fragments (curSNIdx - 1)
    let nextFrag := listGetInt fragments (curSNIdx + 1)
    match fragPrevious with
    | some prev =>
      if frag.sn = prev.sn then
        if sameLevel ∧ ¬frag.backtracked then
          if frag.sn.val < levelDetails.endSN then
            let deltaPTS := prev.deltaPTS
            if deltaPTS ≠ 0 ∧ deltaPTS > config.maxBufferHole ∧ prev.dropped ≠ 0 ∧
                curSNIdx ≠ 0 ∧ ¬frag.backtracked then
              (fragments, prevFrag)
            else
              (fragments, nextFrag)
          else (fragments, none)
        else if frag.backtracked then
          -- only backtrack a max of 1 consecutive fragment
          match nextFrag with
          | some nf =>
            if nf.backtracked then (fragments, some nf)
            else findFragmentBacktrackStep fragments frag curSNIdx prevFrag
          | none => findFragmentBacktrackStep fragments frag curSNIdx prevFrag
        else (fragments, some frag)
      else (fragments, some frag)
    | none => (fragments, some frag)

/-- `_loadKey(frag)`. -/
def _loadKey (sc : SC) (frag : Fragment) : SC × List Effect :=
  ({ sc with state := .KEY_LOADING }, [Effect.keyLoading frag.sn])

/-- `_loadFragment(frag)`: record the fragment as current, advance
`nextLoadPosition`, then dispatch according to the tracker state. -/
def _loadFragment (sc : SC) (frag : Fragment) : SC × List Effect :=
  let fragState := trackerGetState sc.fragmentTracker frag
  let sc1 := { sc with fragCurrent := some frag, startFragRequested := true }
  -- don't update nextLoadPosition for fragments which are not buffered
  let sc2 :=
    if frag.sn.isFiniteSN ∧ ¬sc1.bitrateTest then
      { sc1 with nextLoadPosition := frag.start + frag.duration }
    else sc1
  -- allow backtracked fragments to load
  if frag.backtracked ∨ fragState = .NOT_LOADED ∨ fragState = .PARTIAL then
    let frag2 := { frag with autoLevel := sc2.autoLevelEnabled }
    -- the fragment object is aliased by fragCurrent
    let sc3 := { sc2 with fragCurrent := some frag2 }
    if frag2.sn = .initSegment then
      (sc3, [Effect.loadInitSegment frag2.sn])
    else if sc3.bitrateTest then
      let frag3 := { frag2 with bitrateTest := true }
      ({ sc3 with fragCurrent := some frag3 }, [Effect.loadBitrateTest frag3.sn])
    else
      (sc3, [Effect.loadForPlayback frag2.sn])
  else if fragState = .APPENDING then
    -- lower the buffer size and try again
    let r := _reduceMaxBufferLength sc2.config frag.duration
    let sc3 := { sc2 with config := r.1 }
    if r.2 then
      ({ sc3 with fragmentTracker := trackerRemove sc3.fragmentTracker frag }, [])
    else (sc3, [])
  else (sc2, [])

/-- `immediateLevelSwitch()`: on first invocation record the paused state
and pause; on every invocation abort any in-flight fragment loader, clear
`fragCurrent` and flush the whole buffer. -/
def immediateLevelSwitch (sc0 : SC) : SC × List Effect :=
  let r1 : SC × List Effect :=
    if ¬sc0.immediateSwitch then
      let sc1 := { sc0 with immediateSwitch := true }
      match sc1.media with
      | some m =>
        ({ sc1 with previouslyPaused := m.paused, media := some { m with paused := true } },
         [Effect.mediaPause])
      | none =>
        -- don't restart playback after instant level switch if media not attached
        ({ sc1 with previouslyPaused := true }, [])
    else (sc0, [])
  let sc2 := r1.1
  let abortEffs : List Effect := match sc2.fragCurrent with
    | some f => if f.hasLoader then [Effect.abortFragLoader f.sn] else []
    | none => []
  let sc3 := { sc2 with fragCurrent := none }
  let r2 := flushMainBuffer sc3 0 none
  (r2.1, r1.2 ++ abortEffs ++ r2.2)

/-- Whether `pat` is a prefix of `l` (character lists). -/
def listHasPrefixCh : List Char → List Char → Bool
  | [], _ => true
  | _ :: _, [] => false
  | a :: as, b :: bs => a == b && listHasPrefixCh as bs

/-- Whether `pat` occurs inside `l` (character lists). -/
def listHasInfixCh (pat : List Char) : List Char → Bool
  | [] => listHasPrefixCh pat []
  | c :: cs => listHasPrefixCh pat (c :: cs) || listHasInfixCh pat cs

/-- JS `s.indexOf(pat) !== -1`. -/
def strContains (s pat : String) : Bool := listHasInfixCh pat.toList s.toList

/-- JS array indexing into the levels list: `levels[i]`. -/
def listGetLevel (l : List LevelInfo) (i : Int) : Option LevelInfo :=
  if 0 ≤ i then l.get? i.toNat else none

/-- `level.details.startSN` as read by `_handleTransmuxComplete` (the
source assumes the details are present at that point). -/
def levelStartSN (li : LevelInfo) : Int :=
  match li.details with
  | some d => d.startSN
  | none => 0

/-- Track descriptors of a parsed init segment (`tracks.audio/video`). -/
structure InitTrack where
  container : String := ""
  codec : String := ""
  levelCodec : Option String := none
  id : String := ""
  channelCount : Int := 0
  hasInitSegment : Bool := false
deriving DecidableEq, Repr

/-- The `tracks` object handed to `_bufferInitSegment`. -/
structure Tracks where
  audio : Option InitTrack := none
  video : Option InitTrack := none
deriving DecidableEq, Repr

/-- Init-segment part of a remux result. -/
structure InitSegmentData where
  tracks : Option Tracks := none
  initPTS : Option ℚ := none
deriving DecidableEq, Repr

/-- A remux result (`transmuxResult.remuxResult`); `text`/`id3` are kept as
presence flags since only their triggering matters to the controller. -/
structure RemuxResult where
  audio : Option TrackData := none
  video : Option TrackData := none
  text : Bool := false
  id3 : Bool := false
  initSegment : Option InitSegmentData := none
deriving DecidableEq, Repr

/-- A transmux completion: the remux result plus its `(level, sn)`
transmux identifier. -/
structure TransmuxResult where
  remuxResult : RemuxResult
  level : Int := 0
  sn : SN := .num 0
deriving DecidableEq, Repr

/-- Modelled from the spec: `getCurrentContext` (base-stream-controller,
not under `src/`): a completion is accepted only when its `(level, sn)`
matches the in-flight `fragCurrent` and the level exists; late or
abandoned completions yield none. -/
def getCurrentContext (sc : SC) (levelIdx : Int) (sn : SN) : Option (Fragment × LevelInfo) :=
  match sc.fragCurrent, sc.levels with
  | some frag, some levels =>
    if frag.level = levelIdx ∧ frag.sn = sn then
      match listGetLevel levels levelIdx with
      | some li => some (frag, li)
      | none => none
    else none
  | _, _ => none

/-- Write the timing fields computed by `LevelHelper.updateFragPTSDTS`
back into the fragment object. -/
def applyTiming (frag : Fragment) (t : FragTiming) : Fragment :=
  { frag with startPTS := t.startPTS, endPTS := t.endPTS, startDTS := t.startDTS,
              endDTS := t.endDTS, duration := t.duration, deltaPTS := t.deltaPTS }

/-- `_updateTiming(frag, currentLevel, data)`: patch a non-finite
`data.endPTS`, record the elementary streams, and delegate the fragment
and playlist PTS bookkeeping to `LevelHelper.updateFragPTSDTS` (a
collaborator outside `src/`), then trigger `LEVEL_PTS_UPDATED`. -/
def _updateTiming (collab : Collab) (frag : Fragment) (currentLevel : LevelInfo)
    (data : Option TrackData) : Fragment × LevelInfo × List Effect :=
  match data with
  | none => (frag, currentLevel, [])
  | some d =>
    let d := match d.endPTS with
      | none => { d with endPTS := some (d.startPTS + frag.duration),
                         endDTS := some (d.startDTS + frag.duration) }
      | some _ => d
    let frag := if d.hasAudio then { frag with esAudio := true } else frag
    let frag := if d.hasVideo then { frag with esVideo := true } else frag
    match currentLevel.details with
    | none => (frag, currentLevel, [])
    | some details =>
      let r := collab.updateFragPTSDTS details frag d.startPTS (d.endPTS.getD 0)
        d.startDTS (d.endDTS.getD 0)
      (applyTiming frag r.2.1, { currentLevel with details := some r.1 },
       [Effect.levelPtsUpdated])

/-- `_hasDroppedFrames(frag, dropped, startSN)` (module-level function at
the bottom of the source file): decide whether to backtrack, mutating the
fragment's `dropped` count and `backtracked` flag along the way. -/
def _hasDroppedFrames (frag : Fragment) (dropped : Int) (startSN : Int) : Fragment × Bool :=
  if dropped ≠ 0 then
    let frag := { frag with dropped := dropped }
    if ¬frag.backtracked then
      if frag.sn = .num startSN then
        -- the start fragment will be appended with a gap
        (frag, false)
      else
        (frag, true)
    else
      -- already backtracked once: append with a gap instead
      ({ frag with backtracked := false }, false)
  else
    -- only reset the backtracked flag after a load without dropped frames
    ({ frag with backtracked := false }, false)

/-- `_backtrack(frag, nextLoadPosition)`: drop the fragment from the
tracker, flag it backtracked, rewind `nextLoadPosition` and return to
`IDLE` without buffering.  The fragment object is aliased by
`fragCurrent`, so a matching `fragCurrent` sees the mutation. -/
def _backtrack (sc : SC) (frag : Fragment) (nextLoadPosition : ℚ) : SC :=
  let sc1 := { sc with fragmentTracker := trackerRemove sc.fragmentTracker frag }
  let frag1 := { frag with backtracked := true }
  { sc1 with nextLoadPosition := nextLoadPosition, state := .IDLE,
             fragPrevious := some frag1,
             fragCurrent := sc1.fragCurrent.map
               (fun c => if c.sn = frag1.sn ∧ c.level = frag1.level then frag1 else c) }

/-- The `BUFFER_APPENDING` effects emitted by `_bufferInitSegment`'s loop
over the tracks that carry an init segment. -/
def initAppendEffects (tracks : Tracks) : List Effect :=
  (match tracks.audio with
   | some a => if a.hasInitSegment then [Effect.bufferAppending "audio" "initSegment"] else []
   | none => []) ++
  (match tracks.video with
   | some v => if v.hasInitSegment then [Effect.bufferAppending "video" "initSegment"] else []
   | none => [])

/-- `_bufferInitSegment(currentLevel, tracks)`: fix up the level codecs,
trigger `BUFFER_CODECS` and append each track's init segment.
`userAgent` is `navigator.userAgent`, an environment input. -/
def _bufferInitSegment (sc : SC) (userAgent : String) (currentLevel : LevelInfo)
    (tracks : Tracks) : SC × Tracks × List Effect :=
  if sc.state ≠ .PARSING then (sc, tracks, [])
  else
    -- audio expected from the audio stream controller: discard main's
    let tracks := if tracks.audio.isSome ∧ sc.altAudio then { tracks with audio := none }
      else tracks
    let ua := userAgent.toLower
    let tracks := match tracks.audio with
      | some audio =>
        let audioCodec := currentLevel.audioCodec
        let audioCodec := match audioCodec with
          | some c =>
            if sc.audioCodecSwap then
              some (if strContains c "mp4a.40.5" then "mp4a.40.2" else "mp4a.40.5")
            else some c
          | none => none
        let audioCodec :=
          if sc.audioCodecSwitch ∧ audio.channelCount ≠ 1 ∧ ¬strContains ua "firefox" then
            some "mp4a.40.5"
          else audioCodec
        let audioCodec :=
          if strContains ua "android" ∧ audio.container ≠ "audio/mpeg" then
            some "mp4a.40.2"
          else audioCodec
        { tracks with audio := some { audio with levelCodec := audioCodec, id := "main" } }
      | none => tracks
    let tracks := match tracks.video with
      | some video =>
        { tracks with video := some { video with levelCodec := currentLevel.videoCodec,
                                                 id := "main" } }
      | none => tracks
    let appendEffs := initAppendEffects tracks
    let sc := if appendEffs ≠ [] then
        { sc with appended := true, pendingBuffering := true }
      else sc
    (sc, tracks, Effect.bufferCodecs :: appendEffs)

/-- `_bufferFragmentData(data)`: append `data1` and `data2` while in
`PARSING` (the lengths stand for `buffer && buffer.length`). -/
def _bufferFragmentData (sc : SC) (data : Option TrackData) : SC × List Effect :=
  match data with
  | none => (sc, [])
  | some d =>
    if sc.state ≠ .PARSING then (sc, [])
    else
      let step : SC → Nat → SC × List Effect := fun sc len =>
        if len ≠ 0 ∧ sc.state = .PARSING then
          ({ sc with appended := true, pendingBuffering := true },
           [Effect.bufferAppending d.type "data"])
        else (sc, [])
      let r1 := step sc d.data1len
      let r2 := step r1.1 d.data2len
      (r2.1, r1.2 ++ r2.2)

/-- The two `_updateTiming` calls of `_handleTransmuxComplete` (audio then
video), bundled: the updated fragment, level info and triggered effects. -/
def transmuxTiming (collab : Collab) (frag : Fragment) (level : LevelInfo)
    (audio video : Option TrackData) : Fragment × LevelInfo × List Effect :=
  let rA := _updateTiming collab frag level audio
  let rV := _updateTiming collab rA.1 rA.2.1 video
  (rV.1, rV.2.1, rA.2.2 ++ rV.2.2)

/-- The init-segment block of `_handleTransmuxComplete`: buffer the init
segment's tracks and announce a found init PTS. -/
def processInitSegment (sc : SC) (userAgent : String) (level : LevelInfo)
    (iseg : Option InitSegmentData) : SC × List Effect :=
  match iseg with
  | none => (sc, [])
  | some initSeg =>
    let r1 : SC × List Effect := match initSeg.tracks with
      | some tracks =>
        let rB := _bufferInitSegment sc userAgent level tracks
        (rB.1, rB.2.2 ++ [Effect.fragParsingInitSegment])
      | none => (sc, [])
    let e2 : List Effect := match initSeg.initPTS with
      | some _ => [Effect.initPtsFound]
      | none => []
    (r1.1, r1.2 ++ e2)

/-- `_handleTransmuxComplete(transmuxResult)`: validate the context, update
timing, process any init segment, then either backtrack (dropped video
frames) or push the payloads to the buffer sink. -/
def _handleTransmuxComplete (collab : Collab) (userAgent : String) (sc0 : SC)
    (tr : TransmuxResult) : SC × List Effect :=
  match getCurrentContext sc0 tr.level tr.sn with
  | none => (sc0, [])
  | some (frag0, level0) =>
    -- alternate audio is buffered by the audio stream controller
    let audio := if sc0.altAudio then none else tr.remuxResult.audio
    let video := tr.remuxResult.video
    -- update timing before a potential backtrack
    let rT := transmuxTiming collab frag0 level0 audio video
    let frag := rT.1
    let level := rT.2.1
    let timingEffs := rT.2.2
    -- frag object aliased by fragCurrent
    let sc := { sc0 with
      state := SCState.PARSING
      pendingBuffering := true
      appended := false
      fragCurrent := some frag }
    let rInit := processInitSegment sc userAgent level tr.remuxResult.initSegment
    let sc := rInit.1
    let initEffs := rInit.2
    let tailEffs : List Effect :=
      (if tr.remuxResult.id3 then [Effect.fragParsingMetadata] else []) ++
      (if tr.remuxResult.text then [Effect.fragParsingUserdata] else [])
    -- avoid buffering when backtracking this fragment
    match video with
    | some v =>
      let rD := _hasDroppedFrames frag v.dropped (levelStartSN level)
      let frag := rD.1
      let sc := { sc with fragCurrent := some frag }  -- aliasing
      if rD.2 then
        (_backtrack sc frag v.startPTS, timingEffs ++ initEffs)
      else
        let rBv := _bufferFragmentData sc (some v)
        let rBa := _bufferFragmentData rBv.1 audio
        (rBa.1, timingEffs ++ initEffs ++ rBv.2 ++ rBa.2 ++ tailEffs)
    | none =>
      let rBa := _bufferFragmentData sc audio
      (rBa.1, timingEffs ++ initEffs ++ rBa.2 ++ tailEffs)

/-- Write a mutated playlist back into `levels[levelIdx].details`,
modelling that `_findFragment` mutates the shared fragment objects of the
level's playlist in place. -/
def setLevelFragments (sc : SC) (levelIdx : Int) (frags : List Fragment) : SC :=
  match sc.levels with
  | none => sc
  | some levels =>
    match listGetLevel levels levelIdx with
    | none => sc
    | some li =>
      match li.details with
      | none => sc
      | some d =>
        if 0 ≤ levelIdx then
          { sc with levels := some (levels.set levelIdx.toNat
              { li with details := some { d with fragments := frags } }) }
        else sc

/-- Tail of `_fetchPayloadOrEos`: dispatch the chosen fragment to the key
loader or the fragment loader. -/
def loadKeyOrFragment (sc : SC) (frag : Fragment) : SC × List Effect :=
  if frag.encrypted then _loadKey sc frag else _loadFragment sc frag

/-- `_fetchPayloadOrEos(pos, bufferInfo, levelDetails)`: choose the next
fragment (init segment, live-point logic or PTS search) and dispatch it. -/
def _fetchPayloadOrEos (collab : Collab) (sc : SC) (pos : ℚ) (bufferInfo : BufferInfo)
    (levelDetails : LevelDetails) : SC × List Effect :=
  let fragPrevious := sc.fragPrevious
  let level := sc.level
  let fragments := levelDetails.fragments
  let fragLen := fragments.length
  -- empty playlist
  if fragLen = 0 then (sc, [])
  else
    let start := (fragments.head?.map Fragment.start).getD 0
    let end_ := match fragments.getLast? with
      | some l => l.start + l.duration
      | none => 0
    let bufferEnd := bufferInfo.end_
    let initChoice : Option Fragment := match levelDetails.initSegment with
      | some iseg => if ¬iseg.hasData then some iseg else none
      | none => none
    match initChoice with
    | some frag => loadKeyOrFragment sc frag
    | none =>
      if levelDetails.live then
        -- ensure that the requested position is not before playlist start
        if fragLen < sc.config.initialLiveManifestSize then (sc, [])
        else
          let rL := _ensureFragmentAtLivePoint collab sc levelDetails bufferEnd start end_
            fragPrevious fragments fragLen
          let sc := rL.1
          match rL.2 with
          | .explicitNull => (sc, [])
          | .found f => loadKeyOrFragment sc f
          | .undef =>
            let rF := _findFragment collab sc.config start fragPrevious fragLen fragments
              bufferEnd end_ levelDetails
            let sc := setLevelFragments sc level rF.1
            match rF.2 with
            | some f => loadKeyOrFragment sc f
            | none => (sc, [])
      else
        -- VoD playlist: if bufferEnd before start of playlist, load first fragment
        if bufferEnd < start then
          match fragments.head? with
          | some f => loadKeyOrFragment sc f
          | none => (sc, [])
        else
          let rF := _findFragment collab sc.config start fragPrevious fragLen fragments
            bufferEnd end_ levelDetails
          let sc := setLevelFragments sc level rF.1
          match rF.2 with
          | some f => loadKeyOrFragment sc f
          | none => (sc, [])

/-- The load position of the `IDLE` tick: `media.currentTime` once
metadata is loaded, else a nonzero `nextLoadPosition`, else `0`. -/
def idlePos (sc : SC) : ℚ :=
  if sc.loadedmetadata then (sc.media.map Media.currentTime).getD 0
  else if sc.nextLoadPosition ≠ 0 then sc.nextLoadPosition
  else 0

/-- The target ahead-buffer length of the `IDLE` tick as the code computes
it: bitrate-scaled `maxBufferSize` (when the level has a nonzero bitrate)
floored at `maxBufferLength`, then capped at `maxMaxBufferLength`. -/
def idleMaxBufLen (config : SCConfig) (levelBitrate : ℚ) : ℚ :=
  let maxBufLen :=
    if levelBitrate ≠ 0 then
      max (8 * config.maxBufferSize / levelBitrate) config.maxBufferLength
    else config.maxBufferLength
  min maxBufLen config.maxMaxBufferLength

/-- The claim's formula for `maxBufLen`, following the spec's words:
`clamp(levelBitrate ? max(8·maxBufferSize/levelBitrate, maxBufferLength) :
maxBufferLength, 0, maxMaxBufferLength)`.  Stated from the spec, for
comparison with the computation inside `_doTickIdle`. -/
def maxBufLenClaim (config : SCConfig) (levelBitrate : ℚ) : ℚ :=
  let raw := if levelBitrate ≠ 0 then
      max (8 * config.maxBufferSize / levelBitrate) config.maxBufferLength
    else config.maxBufferLength
  min (max raw 0) config.maxMaxBufferLength

/-- `_doTickIdle()`: the `IDLE` dispatch of the tick: guard on media and
level availability, compute the target buffer length, stay idle inside
buffer margins, otherwise wait for the level, emit EOS, or select and
dispatch the next fragment. -/
def _doTickIdle (collab : Collab) (sc : SC) : SC × List Effect :=
  let level := sc.nextLoadLevel
  if sc.levelLastLoaded = none ∨
      (sc.media = none ∧ (sc.startFragRequested ∨ ¬sc.config.startFragPrefetch)) then
    (sc, [])
  else
    match sc.levels with
    | none => (sc, [])
    | some levels =>
      match listGetLevel levels level with
      | none => (sc, [])
      | some levelInfo =>
        -- if we have not yet loaded any fragment, start from the start position
        let pos : ℚ := idlePos sc
        let levelBitrate := levelInfo.bitrate
        let maxBufLen : ℚ := idleMaxBufLen sc.config levelBitrate
        let bufferInfo := collab.bufferInfo pos sc.config.maxBufferHole
        let bufferLen := bufferInfo.len
        -- stay idle if we are still within buffer margins
        if bufferLen ≥ maxBufLen then (sc, [])
        else
          let sc := { sc with level := level, nextLoadLevel := level }
          match levelInfo.details with
          | none => ({ sc with state := .WAITING_LEVEL }, [])
          | some levelDetails =>
            if levelDetails.live ∧ sc.levelLastLoaded ≠ some level then
              ({ sc with state := .WAITING_LEVEL }, [])
            else if collab.streamEnded bufferInfo levelDetails then
              ({ sc with state := .ENDED }, [Effect.bufferEos])
            else
              _fetchPayloadOrEos collab sc pos bufferInfo levelDetails

/-- `immediateLevelSwitchEnd()`: nudge the decoder and resume playback when
it was not previously paused.  `media.buffered.length` is passed in as a
flag from the media interface. -/
def immediateLevelSwitchEnd (collab : Collab) (sc : SC) (mediaBufferedNonempty : Bool) :
    SC × List Effect :=
  match sc.media with
  | some m =>
    if mediaBufferedNonempty then
      let sc1 := { sc with immediateSwitch := false }
      let r1 : SC × List Effect :=
        if collab.isBuffered m.currentTime then
          ({ sc1 with media := some { m with currentTime := m.currentTime - 1/10000 } }, [])
        else (sc1, [])
      if ¬sc.previouslyPaused then
        (r1.1, r1.2 ++ [Effect.mediaPlay])
      else (r1.1, r1.2)
    else (sc, [])
  | none => (sc, [])

/-! ### Concrete collaborator instances used by witnesses and scenarios -/

/-- A collaborator instance with inert lookups, used where a theorem's
scenario never consults the corresponding interface. -/
def trivialCollab : Collab where
  bufferInfo := fun _ _ => {}
  isBuffered := fun _ => false
  streamEnded := fun _ _ => false
  findFragmentByPTS := fun _ _ _ _ => none
  findFragmentByPDT := fun _ _ _ => none
  updateFragPTSDTS := fun d _ _ _ _ _ => (d, {}, 0)

/-! ### Theorems -/

/-- The S4 retry-backoff configuration:
`fragLoadingMaxRetry = 3`, `fragLoadingRetryDelay = 500 ms`,
`fragLoadingMaxRetryTimeout = 4000 ms`. -/
def retryConfig : SCConfig :=
  { fragLoadingMaxRetry := 3
    fragLoadingRetryDelay := 500
    fragLoadingMaxRetryTimeout := 4000 }

/-- Controller at the first failure of the S4 scenario. -/
def retrySC0 : SC := { config := retryConfig, state := .FRAG_LOADING }

/-- A non-fatal main-fragment load error event. -/
def retryData : ErrorData := { details := .FRAG_LOAD_ERROR, frag := some {} }

/-- One failure step of the S4 scenario, at clock `0`. -/
def retryStep (sc : SC) : SC := (onError trivialCollab sc retryData 0).1

/-- C1: for a non-fatal `FRAG_LOAD_ERROR` / `FRAG_LOAD_TIMEOUT` /
`KEY_LOAD_ERROR` / `KEY_LOAD_TIMEOUT` about a main fragment, `onError` with
`fragLoadError < fragLoadingMaxRetry` sets the retry date to
`now + min(2^fragLoadError · fragLoadingRetryDelay, fragLoadingMaxRetryTimeout)`,
increments `fragLoadError` and moves to `FRAG_LOADING_WAITING_RETRY`;
otherwise it sets the event's fatal flag and moves to `ERROR`.  With
`fragLoadingMaxRetry = 3`, delay `500` and cap `4000`, three consecutive
failures at `t = 0` schedule retries after 500, 1000 and 2000 ms, and the
fourth failure escalates to fatal. -/
theorem onError_fragLoad_retry_backoff
    (collab : Collab) (sc : SC) (data : ErrorData) (now : ℚ)
    (hdet : data.details = .FRAG_LOAD_ERROR ∨ data.details = .FRAG_LOAD_TIMEOUT ∨
      data.details = .KEY_LOAD_ERROR ∨ data.details = .KEY_LOAD_TIMEOUT)
    (hfatal : data.fatal = false)
    (hmain : ∀ f, errorFragOf sc data = some f → f.type = "main") :
    ((sc.fragLoadError < sc.config.fragLoadingMaxRetry →
      (onError collab sc data now).1.retryDate =
          now + min ((2 : ℚ) ^ sc.fragLoadError * sc.config.fragLoadingRetryDelay)
            sc.config.fragLoadingMaxRetryTimeout ∧
      (onError collab sc data now).1.fragLoadError = sc.fragLoadError + 1 ∧
      (onError collab sc data now).1.state = .FRAG_LOADING_WAITING_RETRY ∧
      (onError collab sc data now).2.1.fatal = false) ∧
    (sc.config.fragLoadingMaxRetry ≤ sc.fragLoadError →
      (onError collab sc data now).2.1.fatal = true ∧
      (onError collab sc data now).1.state = .ERROR)) ∧
    ((retryStep retrySC0).retryDate = 500 ∧
      (retryStep retrySC0).state = .FRAG_LOADING_WAITING_RETRY ∧
      (retryStep (retryStep retrySC0)).retryDate = 1000 ∧
      (retryStep (retryStep retrySC0)).state = .FRAG_LOADING_WAITING_RETRY ∧
      (retryStep (retryStep (retryStep retrySC0))).retryDate = 2000 ∧
      (retryStep (retryStep (retryStep retrySC0))).state = .FRAG_LOADING_WAITING_RETRY ∧
      (onError trivialCollab (retryStep (retryStep (retryStep retrySC0))) retryData 0).2.1.fatal
        = true ∧
      (onError trivialCollab (retryStep (retryStep (retryStep retrySC0))) retryData 0).1.state
        = .ERROR) := by
  have hnotmain : (match errorFragOf sc data with
      | some f => f.type != "main"
      | none => false) = false := by
    cases hef : errorFragOf sc data with
    | none => rfl
    | some f => simp [hmain f hef]
  constructor
  · constructor
    · intro hlt
      have hle : sc.fragLoadError + 1 ≤ sc.config.fragLoadingMaxRetry := hlt
      rcases hdet with h | h | h | h <;>
        · simp only [onError, hnotmain, Bool.false_eq_true, if_false, h, hfatal, if_pos hle]
          by_cases hm : sc.loadedmetadata <;> simp [hm]
    · intro hge
      have hle : ¬ sc.fragLoadError + 1 ≤ sc.config.fragLoadingMaxRetry := by omega
      rcases hdet with h | h | h | h <;>
        · simp only [onError, hnotmain, Bool.false_eq_true, if_false, h, hfatal, if_neg hle]
          simp
  · refine ⟨?_, ?_, ?_, ?_, ?_, ?_, ?_, ?_⟩ <;>
      norm_num [retryStep, onError, trivialCollab, retryData, retrySC0, retryConfig, errorFragOf]

/-- Witness: `onError_fragLoad_retry_backoff` applied at the concrete S4
input, with every hypothesis discharged there. -/
theorem onError_fragLoad_retry_backoff_witness :
    (onError trivialCollab retrySC0 retryData 0).1.state = .FRAG_LOADING_WAITING_RETRY ∧
    (onError trivialCollab retrySC0 retryData 0).1.fragLoadError = 1 := by
  have hmain : ∀ f, errorFragOf retrySC0 retryData = some f → f.type = "main" := by
    intro f h
    rw [show errorFragOf retrySC0 retryData = some ({} : Fragment) from rfl] at h
    exact (Option.some_inj.mp h) ▸ rfl
  have h := onError_fragLoad_retry_backoff trivialCollab retrySC0 retryData 0
    (Or.inl rfl) rfl hmain
  have hlt : retrySC0.fragLoadError < retrySC0.config.fragLoadingMaxRetry := by decide
  exact ⟨(h.1.1 hlt).2.2.1, (h.1.1 hlt).2.1⟩

/-- The main-fragment guard of `onError` evaluates to a false test for
events whose resolved fragment (if any) is of type `'main'`. -/
theorem notMainFalse (sc : SC) (data : ErrorData)
    (hmain : ∀ f, errorFragOf sc data = some f → f.type = "main") :
    (match errorFragOf sc data with
      | some f => f.type != "main"
      | none => false) = false := by
  cases hef : errorFragOf sc data with
  | none => rfl
  | some f => simp [hmain f hef]

/-- Controller hitting `BUFFER_FULL_ERROR` while `PARSING` with
`maxMaxBufferLength = 60` and `maxBufferLength = 40`. -/
def bufferFullSC : SC :=
  { config := { maxBufferLength := 40, maxMaxBufferLength := 60 }
    state := .PARSING
    media := some {} }

/-- A `BUFFER_FULL_ERROR` event with parent `'main'`. -/
def bufferFullData : ErrorData := { details := .BUFFER_FULL_ERROR, parent := some "main" }

/-- Collaborator reporting every probe position as buffered. -/
def bufferedCollab : Collab := { trivialCollab with isBuffered := fun _ => true }

/-- C2 counterexample: with `maxMaxBufferLength = 60` and
`maxBufferLength = 40`, the buffered-position branch of the
`BUFFER_FULL_ERROR` handler halves `maxMaxBufferLength` to `30`, which is
strictly below `maxBufferLength = 40`: the claimed floor at
`maxBufferLength` does not exist in the code. -/
theorem bufferFull_floor_counterexample :
    (onError bufferedCollab bufferFullSC bufferFullData 0).1.config.maxMaxBufferLength = 30 ∧
    (30 : ℚ) < bufferFullSC.config.maxBufferLength ∧
    (onError bufferedCollab bufferFullSC bufferFullData 0).1.state = .IDLE := by
  norm_num [onError, bufferedCollab, trivialCollab, bufferFullSC, bufferFullData,
    errorFragOf, scMediaBuffered, _reduceMaxBufferLength]

/-- C2 (amended): on `BUFFER_FULL_ERROR` with parent `'main'` while
`PARSING` or `PARSED`: when the current position is buffered,
`maxMaxBufferLength` is halved when it is at least `maxBufferLength` and
left unchanged otherwise (a single halving may land below
`maxBufferLength`; once below it, no further halving occurs), the state
becomes `IDLE` and no flush is issued; when the position is not buffered,
`fragCurrent` is cleared and the whole buffer is flushed over `[0, +∞)`. -/
theorem onError_bufferFull_behavior
    (collab : Collab) (sc : SC) (data : ErrorData) (now : ℚ)
    (hdet : data.details = .BUFFER_FULL_ERROR)
    (hparent : data.parent = some "main")
    (hstate : sc.state = .PARSING ∨ sc.state = .PARSED)
    (hmain : ∀ f, errorFragOf sc data = some f → f.type = "main") :
    (scMediaBuffered collab sc = true →
      (onError collab sc data now).1.config.maxMaxBufferLength =
        (if sc.config.maxBufferLength ≤ sc.config.maxMaxBufferLength then
          sc.config.maxMaxBufferLength / 2 else sc.config.maxMaxBufferLength) ∧
      (onError collab sc data now).1.state = .IDLE ∧
      (onError collab sc data now).2.2 = []) ∧
    (scMediaBuffered collab sc = false →
      (onError collab sc data now).1.fragCurrent = none ∧
      (onError collab sc data now).1.state = .BUFFER_FLUSHING ∧
      (onError collab sc data now).2.2 =
        [Effect.bufferFlushing 0 none (if sc.altAudio then some "video" else none)]) := by
  have hnm := notMainFalse sc data hmain
  have hcond : (data.parent = some "main" ∧ (sc.state = .PARSING ∨ sc.state = .PARSED)) :=
    ⟨hparent, hstate⟩
  constructor
  · intro hbuf
    simp only [onError, hnm, Bool.false_eq_true, if_false, hdet, if_pos hcond, hbuf, if_true]
    refine ⟨?_, by trivial, by trivial⟩
    by_cases h : sc.config.maxBufferLength ≤ sc.config.maxMaxBufferLength <;>
      simp [_reduceMaxBufferLength, h, ge_iff_le]
  · intro hbuf
    simp only [onError, hnm, Bool.false_eq_true, if_false, hdet, if_pos hcond, hbuf]
    simp [flushMainBuffer]

/-- Witness: `onError_bufferFull_behavior` applied at the concrete S6-style
input, with every hypothesis discharged there. -/
theorem onError_bufferFull_behavior_witness :
    (onError bufferedCollab bufferFullSC bufferFullData 0).1.state = .IDLE ∧
    (onError bufferedCollab bufferFullSC bufferFullData 0).2.2 = [] := by
  have hmain : ∀ f, errorFragOf bufferFullSC bufferFullData = some f → f.type = "main" := by
    intro f h
    rw [show errorFragOf bufferFullSC bufferFullData = none from rfl] at h
    exact Option.noConfusion h
  have h := onError_bufferFull_behavior bufferedCollab bufferFullSC bufferFullData 0 rfl rfl
    (Or.inl rfl) hmain
  have hbuf : scMediaBuffered bufferedCollab bufferFullSC = true := rfl
  exact ⟨(h.1 hbuf).2.1, (h.1 hbuf).2.2⟩

/-- Live-switch scenario: first fragment of the new playlist, `cc = 0`. -/
def ccFrag0 : Fragment := { sn := .num 10, cc := 0, start := 0, duration := 6 }

/-- Live-switch scenario: middle fragment of the new playlist, `cc = 1`. -/
def ccFrag1 : Fragment := { sn := .num 11, cc := 1, start := 6, duration := 6 }

/-- Live-switch scenario: last fragment of the new playlist, `cc = 2`. -/
def ccFrag2 : Fragment := { sn := .num 12, cc := 2, start := 12, duration := 6 }

/-- Previous fragment from the old playlist: `sn = 5`, `cc = 0`; its
`sn + 1 = 6` lies outside the new window `[10, 12]`, so the same-CC binary
search is consulted. -/
def ccPrev : Fragment := { sn := .num 5, cc := 0 }

/-- The new live playlist without PTS info for the live-switch scenario. -/
def ccDetails : LevelDetails :=
  { live := true
    PTSKnown := false
    hasProgramDateTime := false
    startSN := 10
    endSN := 12
    targetduration := 6
    totalduration := 18
    fragments := [ccFrag0, ccFrag1, ccFrag2] }

/-- Controller switching level on a live playlist (a fragment was already
requested). -/
def ccSC : SC := { startFragRequested := true }

/-- C3: the live-switch same-CC binary search evaluated on fragments with
continuity counters `[0, 1, 2]` and a previous fragment with `cc = 0`.
Because the source comparator's second test compares the fragment object
itself with a number (`fragPrevious < frag.cc`, always false), the search
stops on the middle fragment with `cc = 1` even though a fragment with the
matching `cc = 0` exists, and `_ensureFragmentAtLivePoint` selects it; the
comparator corrected to the spec's words finds the `cc = 0` match. -/
theorem liveCC_binarySearch_bug :
    binarySearchSearch [ccFrag0, ccFrag1, ccFrag2] (liveCCComparator ccPrev) = some ccFrag1 ∧
    ccFrag1.cc ≠ ccPrev.cc ∧
    ccFrag0.cc = ccPrev.cc ∧
    (_ensureFragmentAtLivePoint trivialCollab ccSC ccDetails 10 0 18 (some ccPrev)
        [ccFrag0, ccFrag1, ccFrag2] 3).2 = .found ccFrag1 ∧
    binarySearchSearch [ccFrag0, ccFrag1, ccFrag2] (liveCCComparatorSpec ccPrev)
      = some ccFrag0 := by
  refine ⟨rfl, by decide, by decide, ?_, rfl⟩
  have hbs : binarySearchSearch [ccFrag0, ccFrag1, ccFrag2] (liveCCComparator ccPrev)
      = some ccFrag1 := rfl
  have hcu : liveCatchUp ccSC ccDetails 10 0 18 = (ccSC, 10) := by
    norm_num [liveCatchUp, liveMaxLatency, ccSC, ccDetails]
  simp only [_ensureFragmentAtLivePoint, hcu]
  norm_num [hbs, show ccSC.media = none from rfl, show ccSC.startFragRequested = true from rfl,
    show ccDetails.PTSKnown = false from rfl, show ccDetails.hasProgramDateTime = false from rfl,
    show ccDetails.startSN = 10 from rfl, show ccDetails.endSN = 12 from rfl,
    show ccPrev.sn = SN.num 5 from rfl]

/-- A fragment already flagged backtracked, for the C5 scenario. -/
def backtrackedFrag : Fragment := { sn := .num 10, backtracked := true }

/-- C5 counterexample: processing the transmux output of the already
backtracked fragment `sn = 10` with `5` dropped frames reported clears
`backtracked` (the give-up path: the fragment is appended with a gap), so
the flag is cleared on a processing path that does report dropped frames,
not only after a reload without dropped frames. -/
theorem backtracked_cleared_with_drops_counterexample :
    backtrackedFrag.backtracked = true ∧
    (5 : Int) ≠ 0 ∧
    (_hasDroppedFrames backtrackedFrag 5 5).1.backtracked = false ∧
    (_hasDroppedFrames backtrackedFrag 5 5).2 = false := by
  refine ⟨rfl, by decide, rfl, rfl⟩

/-- C5 (amended): processing the transmux output of a fragment whose
`backtracked` flag is true always clears the flag and never requests
another backtrack: after a reload without dropped frames (successful), and
also when dropped frames are reported again, in which case the fragment is
appended with a gap instead. -/
theorem hasDroppedFrames_clears_backtracked
    (frag : Fragment) (dropped : Int) (startSN : Int)
    (hb : frag.backtracked = true) :
    (_hasDroppedFrames frag dropped startSN).1.backtracked = false ∧
    (_hasDroppedFrames frag dropped startSN).2 = false := by
  unfold _hasDroppedFrames
  by_cases hd : dropped = 0 <;> simp [hd, hb]

/-- Witness: `hasDroppedFrames_clears_backtracked` applied at a concrete
backtracked fragment with a clean reload. -/
theorem hasDroppedFrames_clears_backtracked_witness :
    (_hasDroppedFrames backtrackedFrag 0 5).1.backtracked = false ∧
    (_hasDroppedFrames backtrackedFrag 0 5).2 = false :=
  hasDroppedFrames_clears_backtracked backtrackedFrag 0 5 rfl

/-- C9: `_loadFragment` records the fragment as `fragCurrent` (same
identity), sets `startFragRequested`, and — for a finite `sn` with no
bitrate test in progress — advances `nextLoadPosition` to
`frag.start + frag.duration`, all regardless of the tracker state; when
the tracker reports `OK` or `APPENDING` for a non-backtracked fragment
these mutations still happen while no load is dispatched. -/
theorem loadFragment_mutations (sc : SC) (frag : Fragment) :
    ((_loadFragment sc frag).1.startFragRequested = true) ∧
    ((_loadFragment sc frag).1.fragCurrent.map Fragment.sn = some frag.sn) ∧
    ((_loadFragment sc frag).1.fragCurrent.map Fragment.level = some frag.level) ∧
    (frag.sn.isFiniteSN = true → sc.bitrateTest = false →
      (_loadFragment sc frag).1.nextLoadPosition = frag.start + frag.duration) ∧
    (frag.backtracked = false →
      (trackerGetState sc.fragmentTracker frag = .OK ∨
        trackerGetState sc.fragmentTracker frag = .APPENDING) →
      (_loadFragment sc frag).2 = []) := by
  unfold _loadFragment
  dsimp only
  refine ⟨?_, ?_, ?_, ?_, ?_⟩
  · split_ifs <;> simp
  · split_ifs <;> simp
  · split_ifs <;> simp
  · intro hfin hbt
    split_ifs <;> simp_all
  · intro hb hstate
    rcases hstate with h | h <;> split_ifs <;> simp_all

/-- Witness: `loadFragment_mutations` applied at a concrete controller
whose tracker reports the fragment as `OK`. -/
theorem loadFragment_mutations_witness :
    (_loadFragment { fragmentTracker := [((0, SN.num 7), FragmentState.OK)] }
      { sn := .num 7, start := 14, duration := 2 }).1.nextLoadPosition = 16 ∧
    (_loadFragment { fragmentTracker := [((0, SN.num 7), FragmentState.OK)] }
      { sn := .num 7, start := 14, duration := 2 }).2 = [] := by
  have h := loadFragment_mutations { fragmentTracker := [((0, SN.num 7), FragmentState.OK)] }
    { sn := .num 7, start := 14, duration := 2 }
  refine ⟨?_, h.2.2.2.2 rfl (Or.inl rfl)⟩
  have h4 := h.2.2.2.1 rfl rfl
  rw [h4]
  norm_num

/-- C10: calling `immediateLevelSwitch` again while a switch is already in
progress (`immediateSwitch = true`) does not pause the media again and
does not overwrite the recorded `previouslyPaused` flag (so the play/pause
state captured by the first call is the one `immediateLevelSwitchEnd` will
consult); every call, first or repeated, still aborts an in-flight
fragment loader, clears `fragCurrent`, and issues the full-range flush. -/
theorem immediateLevelSwitch_idempotent (sc : SC) (hsw : sc.immediateSwitch = true) :
    ((immediateLevelSwitch sc).1.previouslyPaused = sc.previouslyPaused) ∧
    ((immediateLevelSwitch sc).1.media = sc.media) ∧
    (Effect.mediaPause ∉ (immediateLevelSwitch sc).2) ∧
    ((immediateLevelSwitch sc).1.fragCurrent = none) ∧
    ((immediateLevelSwitch sc).1.state = .BUFFER_FLUSHING) ∧
    (∀ f, sc.fragCurrent = some f → f.hasLoader = true →
      Effect.abortFragLoader f.sn ∈ (immediateLevelSwitch sc).2) ∧
    (Effect.bufferFlushing 0 none (if sc.altAudio then some "video" else none)
      ∈ (immediateLevelSwitch sc).2) := by
  unfold immediateLevelSwitch
  dsimp only
  rw [if_neg (by simp [hsw])]
  cases hfc : sc.fragCurrent with
  | none => simp [flushMainBuffer]
  | some f =>
    by_cases hl : f.hasLoader = true <;>
      simp [flushMainBuffer, hl]

/-- Controller mid-switch with an in-flight loader, for the C10 witness. -/
def switchSC : SC :=
  { immediateSwitch := true
    previouslyPaused := true
    media := some { paused := false }
    fragCurrent := some { sn := .num 4, hasLoader := true } }

/-- Witness: `immediateLevelSwitch_idempotent` applied at a concrete
mid-switch controller. -/
theorem immediateLevelSwitch_idempotent_witness :
    (immediateLevelSwitch switchSC).1.previouslyPaused = true ∧
    Effect.mediaPause ∉ (immediateLevelSwitch switchSC).2 ∧
    (immediateLevelSwitch switchSC).1.fragCurrent = none := by
  have h := immediateLevelSwitch_idempotent switchSC rfl
  exact ⟨by rw [h.1]; rfl, h.2.2.1, h.2.2.2.1⟩

/-- `_updateTiming` leaves the fragment's identity and backtrack
bookkeeping untouched: it only writes timing fields and elementary-stream
flags. -/
theorem updateTiming_preserves_id (collab : Collab) (frag : Fragment) (li : LevelInfo)
    (data : Option TrackData) :
    (_updateTiming collab frag li data).1.sn = frag.sn ∧
    (_updateTiming collab frag li data).1.level = frag.level ∧
    (_updateTiming collab frag li data).1.backtracked = frag.backtracked := by
  unfold _updateTiming
  cases data with
  | none => simp
  | some d =>
    dsimp only
    cases hep : d.endPTS <;> cases hd : li.details <;>
      split_ifs <;> simp_all [applyTiming]

/-- `_updateTiming` does not move the level's `startSN` when the PTS
bookkeeping collaborator preserves it. -/
theorem updateTiming_startSN (collab : Collab)
    (hor : ∀ dd f a b c e, ((collab.updateFragPTSDTS dd f a b c e).1).startSN = dd.startSN)
    (frag : Fragment) (li : LevelInfo) (data : Option TrackData) :
    levelStartSN (_updateTiming collab frag li data).2.1 = levelStartSN li := by
  unfold _updateTiming
  cases data with
  | none => simp
  | some d =>
    dsimp only
    cases hep : d.endPTS <;> cases hd : li.details <;>
      split_ifs <;> simp_all [levelStartSN, hor]

/-- The only event `_updateTiming` triggers is `LEVEL_PTS_UPDATED`. -/
theorem updateTiming_effects (collab : Collab) (frag : Fragment) (li : LevelInfo)
    (data : Option TrackData) (e : Effect)
    (he : e ∈ (_updateTiming collab frag li data).2.2) : e = Effect.levelPtsUpdated := by
  unfold _updateTiming at he
  cases data with
  | none => simp at he
  | some d =>
    dsimp only at he
    cases hep : d.endPTS <;> cases hd : li.details <;> simp_all

/-- The bundled timing stage preserves the fragment's identity and
backtrack bookkeeping. -/
theorem transmuxTiming_preserves_id (collab : Collab) (frag : Fragment) (li : LevelInfo)
    (audio video : Option TrackData) :
    (transmuxTiming collab frag li audio video).1.sn = frag.sn ∧
    (transmuxTiming collab frag li audio video).1.level = frag.level ∧
    (transmuxTiming collab frag li audio video).1.backtracked = frag.backtracked := by
  unfold transmuxTiming
  dsimp only
  obtain ⟨h1, h2, h3⟩ := updateTiming_preserves_id collab frag li audio
  obtain ⟨g1, g2, g3⟩ := updateTiming_preserves_id collab
    (_updateTiming collab frag li audio).1 (_updateTiming collab frag li audio).2.1 video
  exact ⟨g1.trans h1, g2.trans h2, g3.trans h3⟩

/-- The bundled timing stage preserves the level's `startSN` when the PTS
bookkeeping collaborator does. -/
theorem transmuxTiming_startSN (collab : Collab)
    (hor : ∀ dd f a b c e, ((collab.updateFragPTSDTS dd f a b c e).1).startSN = dd.startSN)
    (frag : Fragment) (li : LevelInfo) (audio video : Option TrackData) :
    levelStartSN (transmuxTiming collab frag li audio video).2.1 = levelStartSN li := by
  unfold transmuxTiming
  dsimp only
  exact (updateTiming_startSN collab hor _ _ video).trans
    (updateTiming_startSN collab hor frag li audio)

/-- The timing stage triggers only `LEVEL_PTS_UPDATED` events. -/
theorem transmuxTiming_effects (collab : Collab) (frag : Fragment) (li : LevelInfo)
    (audio video : Option TrackData) (e : Effect)
    (he : e ∈ (transmuxTiming collab frag li audio video).2.2) :
    e = Effect.levelPtsUpdated := by
  unfold transmuxTiming at he
  dsimp only at he
  rcases List.mem_append.mp he with h | h
  · exact updateTiming_effects collab frag li audio e h
  · exact updateTiming_effects collab _ _ video e h

/-- Each append effect of the init-segment loop carries the
`'initSegment'` content tag. -/
theorem initAppendEffects_content (tracks : Tracks) (e : Effect)
    (he : e ∈ initAppendEffects tracks) :
    e = Effect.bufferAppending "audio" "initSegment" ∨
    e = Effect.bufferAppending "video" "initSegment" := by
  unfold initAppendEffects at he
  rcases tracks with ⟨a, v⟩
  rcases a with _ | a <;> rcases v with _ | v <;> simp_all <;> tauto

/-- `_bufferInitSegment` leaves the scheduler state, the fragment tracker,
the current fragment and `nextLoadPosition` unchanged. -/
theorem bufferInitSegment_preserves (sc : SC) (ua : String) (li : LevelInfo)
    (tracks : Tracks) :
    (_bufferInitSegment sc ua li tracks).1.state = sc.state ∧
    (_bufferInitSegment sc ua li tracks).1.fragmentTracker = sc.fragmentTracker ∧
    (_bufferInitSegment sc ua li tracks).1.fragCurrent = sc.fragCurrent ∧
    (_bufferInitSegment sc ua li tracks).1.nextLoadPosition = sc.nextLoadPosition := by
  unfold _bufferInitSegment
  dsimp only
  split_ifs <;> simp

/-- `_bufferInitSegment` never pushes a `'data'` payload. -/
theorem bufferInitSegment_no_data (sc : SC) (ua : String) (li : LevelInfo)
    (tracks : Tracks) (t : String) :
    Effect.bufferAppending t "data" ∉ (_bufferInitSegment sc ua li tracks).2.2 := by
  intro hmem
  unfold _bufferInitSegment at hmem
  by_cases hs : sc.state ≠ SCState.PARSING
  · rw [if_pos hs] at hmem
    simp at hmem
  · rw [if_neg hs] at hmem
    dsimp only at hmem
    rcases List.mem_cons.mp hmem with h | h
    · exact Effect.noConfusion h
    · rcases initAppendEffects_content _ _ h with h' | h' <;> simp at h'

/-- The init-segment block leaves the scheduler state, tracker, current
fragment and `nextLoadPosition` unchanged. -/
theorem processInitSegment_preserves (sc : SC) (ua : String) (li : LevelInfo)
    (iseg : Option InitSegmentData) :
    (processInitSegment sc ua li iseg).1.state = sc.state ∧
    (processInitSegment sc ua li iseg).1.fragmentTracker = sc.fragmentTracker ∧
    (processInitSegment sc ua li iseg).1.fragCurrent = sc.fragCurrent ∧
    (processInitSegment sc ua li iseg).1.nextLoadPosition = sc.nextLoadPosition := by
  unfold processInitSegment
  cases iseg with
  | none => simp
  | some initSeg =>
    dsimp only
    cases initSeg.tracks with
    | none => simp
    | some tracks => exact bufferInitSegment_preserves sc ua li tracks

/-- The init-segment block never pushes a `'data'` payload. -/
theorem processInitSegment_no_data (sc : SC) (ua : String) (li : LevelInfo)
    (iseg : Option InitSegmentData) (t : String) :
    Effect.bufferAppending t "data" ∉ (processInitSegment sc ua li iseg).2 := by
  intro hmem
  unfold processInitSegment at hmem
  cases iseg with
  | none => simp at hmem
  | some initSeg =>
    dsimp only at hmem
    rcases List.mem_append.mp hmem with h | h
    · cases htr : initSeg.tracks with
      | none => rw [htr] at h; simp at h
      | some tracks =>
        rw [htr] at h
        dsimp only at h
        rcases List.mem_append.mp h with h' | h'
        · exact bufferInitSegment_no_data sc ua li tracks t h'
        · simp at h'
    · cases hip : initSeg.initPTS with
      | none => rw [hip] at h; simp at h
      | some p => rw [hip] at h; simp at h

/-- `_hasDroppedFrames` requests a backtrack exactly in the C4 situation:
dropped frames on a not-yet-backtracked non-start fragment. -/
theorem hasDroppedFrames_backtracks (frag : Fragment) (dropped : Int) (startSN : Int)
    (hd : dropped ≠ 0) (hb : frag.backtracked = false) (hsn : frag.sn ≠ .num startSN) :
    _hasDroppedFrames frag dropped startSN = ({ frag with dropped := dropped }, true) := by
  unfold _hasDroppedFrames
  simp [hd, hb, hsn]

/-- C4: a transmux completion whose `(level, sn)` still matches the
current fragment, whose video remux result reports dropped frames, for a
fragment that is neither the level's first (`sn ≠ startSN`) nor already
backtracked, makes the scheduler backtrack: the fragment is removed from
the tracker, its backtracked flag is set to true (visible through
`fragPrevious` and the aliased `fragCurrent`), `nextLoadPosition` becomes
the video payload's `startPTS`, the state becomes `IDLE`, and no `'data'`
payload — in particular not the fragment's video payload — is pushed to
the buffer sink.  The PTS bookkeeping collaborator is assumed to preserve
the level's `startSN`, which `LevelHelper.updateFragPTSDTS` does. -/
theorem transmuxComplete_backtrack
    (collab : Collab) (ua : String) (sc : SC) (tr : TransmuxResult)
    (frag : Fragment) (levels : List LevelInfo) (li : LevelInfo) (d : LevelDetails)
    (v : TrackData)
    (hor : ∀ dd f a b c e, ((collab.updateFragPTSDTS dd f a b c e).1).startSN = dd.startSN)
    (hfc : sc.fragCurrent = some frag)
    (hlv : sc.levels = some levels)
    (hmatchL : frag.level = tr.level)
    (hmatchS : frag.sn = tr.sn)
    (hgl : listGetLevel levels tr.level = some li)
    (hld : li.details = some d)
    (hvid : tr.remuxResult.video = some v)
    (hdrop : v.dropped ≠ 0)
    (hb : frag.backtracked = false)
    (hsn : frag.sn ≠ SN.num d.startSN) :
    ((_handleTransmuxComplete collab ua sc tr).1.state = .IDLE) ∧
    ((_handleTransmuxComplete collab ua sc tr).1.nextLoadPosition = v.startPTS) ∧
    ((_handleTransmuxComplete collab ua sc tr).1.fragmentTracker
        = trackerRemove sc.fragmentTracker frag) ∧
    ((_handleTransmuxComplete collab ua sc tr).1.fragPrevious.map Fragment.backtracked
        = some true) ∧
    ((_handleTransmuxComplete collab ua sc tr).1.fragPrevious.map Fragment.sn
        = some frag.sn) ∧
    ((_handleTransmuxComplete collab ua sc tr).1.fragCurrent.map Fragment.backtracked
        = some true) ∧
    (∀ t, Effect.bufferAppending t "data" ∉ (_handleTransmuxComplete collab ua sc tr).2) := by
  have hctx : getCurrentContext sc tr.level tr.sn = some (frag, li) := by
    simp [getCurrentContext, hfc, hlv, hgl, hmatchL, hmatchS]
  have hlsn : levelStartSN li = d.startSN := by simp [levelStartSN, hld]
  obtain ⟨hid1, hid2, hid3⟩ := transmuxTiming_preserves_id collab frag li
    (if sc.altAudio = true then none else tr.remuxResult.audio) (some v)
  have hSN := transmuxTiming_startSN collab hor frag li
    (if sc.altAudio = true then none else tr.remuxResult.audio) (some v)
  have hD := hasDroppedFrames_backtracks
    ((transmuxTiming collab frag li
      (if sc.altAudio = true then none else tr.remuxResult.audio) (some v)).1)
    v.dropped
    (levelStartSN ((transmuxTiming collab frag li
      (if sc.altAudio = true then none else tr.remuxResult.audio) (some v)).2.1))
    hdrop (hid3.trans hb) (by rw [hid1, hSN, hlsn]; exact hsn)
  unfold _handleTransmuxComplete
  rw [hctx]
  dsimp only
  rw [hvid]
  dsimp only
  rw [hD]
  dsimp only
  unfold _backtrack
  dsimp only
  refine ⟨rfl, rfl, ?_, ?_, ?_, ?_, ?_⟩
  · simp [processInitSegment_preserves, trackerRemove, hid1, hid2]
  · simp
  · simp [hid1]
  · simp [processInitSegment_preserves]
  · intro t hmem
    rcases List.mem_append.mp hmem with h | h
    · have := transmuxTiming_effects collab frag li
        (if sc.altAudio = true then none else tr.remuxResult.audio) (some v) _ h
      simp at this
    · exact processInitSegment_no_data _ ua _ tr.remuxResult.initSegment t h

/-- The S3-style fragment for the C4 witness: `sn = 10` in a level whose
`startSN = 5`. -/
def btFrag : Fragment := { sn := .num 10, level := 0 }

/-- The level playlist for the C4 witness. -/
def btDetails : LevelDetails := { startSN := 5, endSN := 12 }

/-- The level info for the C4 witness. -/
def btLevel : LevelInfo := { details := some btDetails }

/-- Controller with fragment `sn = 10` in flight, for the C4 witness. -/
def btSC : SC :=
  { fragCurrent := some btFrag
    levels := some [btLevel]
    fragmentTracker := [((0, SN.num 10), FragmentState.APPENDING)] }

/-- Video remux output reporting five dropped frames at `startPTS = 30`. -/
def btTrack : TrackData :=
  { type := "video", startPTS := 30, endPTS := some 34, endDTS := some 34
    dropped := 5, hasVideo := true }

/-- The transmux completion for the C4 witness. -/
def btTR : TransmuxResult :=
  { remuxResult := { video := some btTrack }, level := 0, sn := .num 10 }

/-- Witness: `transmuxComplete_backtrack` applied at the concrete S3-style
input, with every hypothesis discharged there. -/
theorem transmuxComplete_backtrack_witness :
    (_handleTransmuxComplete trivialCollab "" btSC btTR).1.state = .IDLE ∧
    (_handleTransmuxComplete trivialCollab "" btSC btTR).1.nextLoadPosition = 30 := by
  have h := transmuxComplete_backtrack trivialCollab "" btSC btTR btFrag [btLevel] btLevel
    btDetails btTrack (fun _ _ _ _ _ _ => rfl) rfl rfl rfl rfl rfl rfl rfl
    (by decide) rfl (by decide)
  exact ⟨h.1, by rw [h.2.1]; rfl⟩

/-- Modelled from the spec: `findFragmentByPTS` (`fragment-finders`, not
under `src/`), per §4.1: a fragment `f` matches iff
`bufferEnd ≥ f.start − t` and `bufferEnd < f.start + f.duration − t` with
`t = min(tolerance, f.duration / 2)`; when `prev.sn + 1` exists in the
same level and covers `bufferEnd`, it is preferred. -/
def findFragmentByPTSSpec (prev : Option Fragment) (fragments : List Fragment)
    (bufferEnd : ℚ) (tolerance : ℚ) : Option Fragment :=
  let matchesAt : Fragment → Bool := fun f =>
    let t := min tolerance (f.duration / 2)
    decide (f.start - t ≤ bufferEnd) && decide (bufferEnd < f.start + f.duration - t)
  let hot : Option Fragment := match prev with
    | some p =>
      match p.sn with
      | .num n =>
        match fragments.find? (fun f =>
            decide (f.sn = .num (n + 1)) && decide (f.level = p.level)) with
        | some f => if matchesAt f then some f else none
        | none => none
      | .initSegment => none
    | none => none
  match hot with
  | some f => some f
  | none => fragments.find? matchesAt

/-- First fragment of the C6 playlist: `sn = 10`, flagged backtracked with
dropped frames recorded. -/
def bk0 : Fragment :=
  { sn := .num 10, level := 1, start := 0, duration := 6, backtracked := true, dropped := 3 }

/-- Second fragment of the C6 playlist: `sn = 11`, not backtracked. -/
def bk1 : Fragment := { sn := .num 11, level := 1, start := 6, duration := 6 }

/-- Previous fragment for C6: same `sn = 10`, same level. -/
def bkPrev : Fragment := { sn := .num 10, level := 1 }

/-- The C6 level playlist: window `[10, 11]`. -/
def bkDetails : LevelDetails := { startSN := 10, endSN := 11, fragments := [bk0, bk1] }

/-- Collaborator using the spec-modelled PTS finder. -/
def bkCollab : Collab := { trivialCollab with findFragmentByPTS := findFragmentByPTSSpec }

/-- Reduction of `_findFragment` in the same-SN backtracked case: once the
PTS search has chosen a backtracked fragment with the previous fragment's
`sn`, the result is decided by the backtracked-successor check and the
step-back helper. -/
theorem findFragment_backtracked_reduce
    (collab : Collab) (config : SCConfig) (start : ℚ) (prev : Fragment)
    (fragLen : Nat) (fragments : List Fragment) (bufferEnd end_ : ℚ)
    (levelDetails : LevelDetails) (frag : Fragment)
    (hlt : bufferEnd < end_)
    (hpts : collab.findFragmentByPTS (some prev) fragments bufferEnd
      (if bufferEnd > end_ - config.maxFragLookUpTolerance then 0
        else config.maxFragLookUpTolerance) = some frag)
    (hsn : frag.sn = prev.sn)
    (hbk : frag.backtracked = true) :
    _findFragment collab config start (some prev) fragLen fragments bufferEnd end_
      levelDetails =
      (match listGetInt fragments (frag.sn.val - levelDetails.startSN + 1) with
       | some nf =>
         if nf.backtracked = true then (fragments, some nf)
         else findFragmentBacktrackStep fragments frag (frag.sn.val - levelDetails.startSN)
           (listGetInt fragments (frag.sn.val - levelDetails.startSN - 1))
       | none => findFragmentBacktrackStep fragments frag
           (frag.sn.val - levelDetails.startSN)
           (listGetInt fragments (frag.sn.val - levelDetails.startSN - 1))) := by
  unfold _findFragment
  rw [if_pos hlt, hpts]
  dsimp only
  rw [if_pos hsn, if_neg (by simp [hbk]), if_pos hbk]

/-- The spec-modelled PTS search on the C6 playlist picks the first
fragment (`bufferEnd = 2` lies inside `[0, 6)`; the `sn + 1` hot path does
not cover it). -/
theorem bk_pts_choice :
    bkCollab.findFragmentByPTS (some bkPrev) [bk0, bk1] 2
      (if (2:ℚ) > 12 - ({} : SCConfig).maxFragLookUpTolerance then 0
        else ({} : SCConfig).maxFragLookUpTolerance) = some bk0 := by
  norm_num [bkCollab, trivialCollab, findFragmentByPTSSpec, bkPrev, bk0, bk1, List.find?]

/-- C6 counterexample: the chosen fragment `sn = 10` equals the previous
fragment's `sn`, is backtracked, has no backtracked successor and no
predecessor (it is the level's first, `curSNIdx = 0`): the claim says
selection then returns none, but the code keeps the fragment itself
selected (with its dropped count reset), because the `frag = null` arm is
guarded by a truthy `curSNIdx`. -/
theorem findFragment_first_fragment_counterexample :
    (_findFragment bkCollab {} 0 (some bkPrev) 2 [bk0, bk1] 2 12 bkDetails).2
      = some { bk0 with dropped := 0 } ∧
    ((_findFragment bkCollab {} 0 (some bkPrev) 2 [bk0, bk1] 2 12 bkDetails).2).isSome
      = true ∧
    bk0.backtracked = true ∧ bk1.backtracked = false ∧ bk0.sn = bkPrev.sn := by
  have hred := findFragment_backtracked_reduce bkCollab {} 0 bkPrev 2 [bk0, bk1] 2 12
    bkDetails bk0 (by norm_num) bk_pts_choice rfl rfl
  rw [hred]
  exact ⟨rfl, rfl, rfl, rfl, rfl⟩

/-- C6 (amended): in the same-SN backtracked adjustment of
`_findFragment` — chosen fragment found by the PTS search, with the same
`sn` as the previous fragment and flagged backtracked —
(a) a backtracked successor makes selection give up backtracking and
return the successor unchanged; (b) with no backtracked successor and an
existing predecessor, the chosen fragment's dropped count is reset and the
predecessor is returned marked `backtracked = true` (so at most one
consecutive backtrack occurs); (c) with no predecessor (the chosen
fragment is the level's first, `curSNIdx = 0`), the chosen fragment itself
stays selected with its dropped count reset — it is reloaded, selection
does not return none. -/
theorem findFragment_backtrack_adjustment
    (collab : Collab) (config : SCConfig) (start : ℚ) (prev : Fragment)
    (fragLen : Nat) (fragments : List Fragment) (bufferEnd end_ : ℚ)
    (levelDetails : LevelDetails) (frag : Fragment)
    (hlt : bufferEnd < end_)
    (hpts : collab.findFragmentByPTS (some prev) fragments bufferEnd
      (if bufferEnd > end_ - config.maxFragLookUpTolerance then 0
        else config.maxFragLookUpTolerance) = some frag)
    (hsn : frag.sn = prev.sn)
    (hbk : frag.backtracked = true) :
    ((∀ nf, listGetInt fragments (frag.sn.val - levelDetails.startSN + 1) = some nf →
      nf.backtracked = true →
      _findFragment collab config start (some prev) fragLen fragments bufferEnd end_
        levelDetails = (fragments, some nf)) ∧
    (∀ pf, (∀ nf, listGetInt fragments (frag.sn.val - levelDetails.startSN + 1) = some nf →
        nf.backtracked = false) →
      listGetInt fragments (frag.sn.val - levelDetails.startSN - 1) = some pf →
      (_findFragment collab config start (some prev) fragLen fragments bufferEnd end_
          levelDetails).2 = some { pf with backtracked := true } ∧
      (_findFragment collab config start (some prev) fragLen fragments bufferEnd end_
          levelDetails).1 =
        listSetInt (listSetInt fragments (frag.sn.val - levelDetails.startSN)
            { frag with dropped := 0 })
          (frag.sn.val - levelDetails.startSN - 1) { pf with backtracked := true }) ∧
    ((∀ nf, listGetInt fragments (frag.sn.val - levelDetails.startSN + 1) = some nf →
        nf.backtracked = false) →
      listGetInt fragments (frag.sn.val - levelDetails.startSN - 1) = none →
      frag.sn.val - levelDetails.startSN = 0 →
      (_findFragment collab config start (some prev) fragLen fragments bufferEnd end_
          levelDetails).2 = some { frag with dropped := 0 })) := by
  have hred := findFragment_backtracked_reduce collab config start prev fragLen fragments
    bufferEnd end_ levelDetails frag hlt hpts hsn hbk
  refine ⟨?_, ?_, ?_⟩
  · intro nf hnf hnb
    rw [hred, hnf]
    simp [hnb]
  · intro pf hnnb hpf
    have hstep : findFragmentBacktrackStep fragments frag
        (frag.sn.val - levelDetails.startSN)
        (listGetInt fragments (frag.sn.val - levelDetails.startSN - 1)) =
        (listSetInt (listSetInt fragments (frag.sn.val - levelDetails.startSN)
            { frag with dropped := 0 })
          (frag.sn.val - levelDetails.startSN - 1) { pf with backtracked := true },
         some { pf with backtracked := true }) := by
      unfold findFragmentBacktrackStep
      rw [hpf]
    rw [hred]
    cases hnf : listGetInt fragments (frag.sn.val - levelDetails.startSN + 1) with
    | none => dsimp only; rw [hstep]; exact ⟨rfl, rfl⟩
    | some nf =>
      dsimp only
      rw [if_neg (by simp [hnnb nf hnf]), hstep]
      exact ⟨rfl, rfl⟩
  · intro hnnb hpf hidx
    rw [hred]
    have hstep : findFragmentBacktrackStep fragments frag
        (frag.sn.val - levelDetails.startSN)
        (listGetInt fragments (frag.sn.val - levelDetails.startSN - 1)) =
        (listSetInt fragments (frag.sn.val - levelDetails.startSN) { frag with dropped := 0 },
         some { frag with dropped := 0 }) := by
      unfold findFragmentBacktrackStep
      rw [hpf, hidx]
      simp
    cases hnf : listGetInt fragments (frag.sn.val - levelDetails.startSN + 1) with
    | none => dsimp only; rw [hstep]
    | some nf =>
      dsimp only
      rw [if_neg (by simp [hnnb nf hnf]), hstep]

/-- Witness: `findFragment_backtrack_adjustment` applied at the concrete
C6 playlist, exercising the first-fragment arm. -/
theorem findFragment_backtrack_adjustment_witness :
    (_findFragment bkCollab {} 0 (some bkPrev) 2 [bk0, bk1] 2 12 bkDetails).2
      = some { bk0 with dropped := 0 } :=
  (findFragment_backtrack_adjustment bkCollab {} 0 bkPrev 2 [bk0, bk1] 2 12 bkDetails bk0
      (by norm_num) bk_pts_choice rfl rfl).2.2
    (by intro nf hnf
        rw [show listGetInt [bk0, bk1] (bk0.sn.val - bkDetails.startSN + 1)
          = some bk1 from rfl] at hnf
        exact (Option.some_inj.mp hnf) ▸ rfl)
    rfl rfl

/-- The code's target buffer length never exceeds the claim's clamped
formula (clamping below at `0` can only raise the value). -/
theorem idleMaxBufLen_le_claim (config : SCConfig) (levelBitrate : ℚ) :
    idleMaxBufLen config levelBitrate ≤ maxBufLenClaim config levelBitrate := by
  unfold idleMaxBufLen maxBufLenClaim
  dsimp only
  exact min_le_min (le_max_left _ _) le_rfl

/-- C7: on an `IDLE` tick with a selected level whose details are loaded,
when the buffered length ahead of the position is at least the claim's
clamped `maxBufLen` formula, `_doTickIdle` returns the controller
unchanged with no effects: no key load, no fragment load, no EOS, and
`state`, `fragCurrent`, `nextLoadPosition` and `level` untouched. -/
theorem doTickIdle_buffer_full_noop
    (collab : Collab) (sc : SC) (levels : List LevelInfo) (levelInfo : LevelInfo)
    (d : LevelDetails)
    (hst : sc.state = .IDLE)
    (hlv : sc.levels = some levels)
    (hgl : listGetLevel levels sc.nextLoadLevel = some levelInfo)
    (hld : levelInfo.details = some d)
    (hbuf : (collab.bufferInfo (idlePos sc) sc.config.maxBufferHole).len ≥
      maxBufLenClaim sc.config levelInfo.bitrate) :
    _doTickIdle collab sc = (sc, []) := by
  unfold _doTickIdle
  dsimp only
  by_cases h1 : sc.levelLastLoaded = none ∨
      (sc.media = none ∧ (sc.startFragRequested = true ∨ ¬sc.config.startFragPrefetch = true))
  · rw [if_pos h1]
  · rw [if_neg h1, hlv]
    dsimp only
    rw [hgl]
    dsimp only
    rw [if_pos (le_trans (idleMaxBufLen_le_claim sc.config levelInfo.bitrate) hbuf)]

/-- Collaborator reporting 100 s of buffer ahead of any position. -/
def fullBufferCollab : Collab :=
  { trivialCollab with bufferInfo := fun _ _ => { start := 0, end_ := 100, len := 100 } }

/-- An `IDLE` controller on a loaded level, for the C7 witness. -/
def tickSC : SC :=
  { state := .IDLE
    levels := some [{ details := some {} }]
    levelLastLoaded := some 0
    nextLoadLevel := 0
    media := some {} }

/-- Witness: `doTickIdle_buffer_full_noop` applied at the concrete
full-buffer controller. -/
theorem doTickIdle_buffer_full_noop_witness :
    _doTickIdle fullBufferCollab tickSC = (tickSC, []) :=
  doTickIdle_buffer_full_noop fullBufferCollab tickSC [{ details := some {} }]
    { details := some {} } {} rfl rfl rfl rfl
    (by norm_num [fullBufferCollab, maxBufLenClaim, tickSC])

/-- The S2 playlist: `targetDuration = 6`, fragments starting at
`1000, 1006, …, 1042`, i.e. sliding `1000` and total duration `48`. -/
def s2Details : LevelDetails :=
  { live := true, targetduration := 6, totalduration := 48, startSN := 0, endSN := 7 }

/-- The S2 configuration: `liveSyncDurationCount = 3`, no explicit
`liveSyncDuration`. -/
def s2Config : SCConfig := { liveSyncDurationCount := 3, liveSyncDuration := none }

/-- C8 counterexample: in the S2 scenario (`targetDuration = 6`, fragments
spanning `[1000, 1048)`, `liveSyncDurationCount = 3`) the live sync
position is `1000 + max(0, 48 − 3·6) = 1030`, not the `1024` the claim
asserts. -/
theorem computeLivePosition_s2_counterexample :
    computeLivePosition s2Config 1000 s2Details = 1030 ∧ (1030 : ℚ) ≠ 1024 := by
  constructor
  · norm_num [computeLivePosition, s2Config, s2Details]
  · norm_num

/-- C8 (amended): `computeLivePosition(sliding, levelDetails)` returns
`sliding + max(0, totalduration − targetLatency)` with `targetLatency`
being `liveSyncDuration` when defined and otherwise
`liveSyncDurationCount · targetduration`; on a live selection tick where
`bufferEnd < max(start − maxFragLookUpTolerance, end − maxLatency)` and
the media is ready with `duration` beyond the live sync position, the
catch-up sets the working `bufferEnd`, `nextLoadPosition`,
`liveSyncPosition` and `media.currentTime` to this position; in the S2
scenario the position is `1030` (= `1048 − 18`), not `1024`. -/
theorem liveSync_catchup :
    (∀ (config : SCConfig) (sliding : ℚ) (d : LevelDetails),
      computeLivePosition config sliding d =
        sliding + max 0 (d.totalduration -
          (match config.liveSyncDuration with
           | some v => v
           | none => config.liveSyncDurationCount * d.targetduration))) ∧
    (∀ (sc : SC) (d : LevelDetails) (bufferEnd start end_ : ℚ) (m : Media),
      sc.media = some m → m.readyState ≠ 0 →
      m.duration > computeLivePosition sc.config start d →
      bufferEnd < max (start - sc.config.maxFragLookUpTolerance)
        (end_ - liveMaxLatency sc.config d) →
      (liveCatchUp sc d bufferEnd start end_).2 = computeLivePosition sc.config start d ∧
      (liveCatchUp sc d bufferEnd start end_).1.nextLoadPosition
        = computeLivePosition sc.config start d ∧
      ((liveCatchUp sc d bufferEnd start end_).1.media.map Media.currentTime)
        = some (computeLivePosition sc.config start d) ∧
      (liveCatchUp sc d bufferEnd start end_).1.liveSyncPosition
        = some (computeLivePosition sc.config start d)) ∧
    computeLivePosition s2Config 1000 s2Details = 1030 := by
  refine ⟨fun config sliding d => rfl, ?_, by norm_num [computeLivePosition, s2Config, s2Details]⟩
  intro sc d bufferEnd start end_ m hm hready hdur hlt
  unfold liveCatchUp
  dsimp only
  rw [if_pos hlt, hm]
  dsimp only
  rw [if_pos ⟨hready, hdur⟩]
  exact ⟨rfl, rfl, rfl, rfl⟩

/-- A live controller attached to a ready media element, for the C8
witness. -/
def s2SC : SC := { config := s2Config, media := some { readyState := 1, duration := 100000 } }

/-- Witness: `liveSync_catchup` applied at the concrete S2 input: buffer
end `0` is far behind the window `[1000, 1048)`, so the catch-up adopts
position `1030`. -/
theorem liveSync_catchup_witness :
    (liveCatchUp s2SC s2Details 0 1000 1048).1.nextLoadPosition = 1030 := by
  have h := liveSync_catchup
  have hb := h.2.1 s2SC s2Details 0 1000 1048 { readyState := 1, duration := 100000 }
    rfl (by norm_num)
    (by norm_num [computeLivePosition, s2SC, s2Config, s2Details])
    (by norm_num [liveMaxLatency, s2SC, s2Config, s2Details])
  rw [hb.2.1]
  norm_num [computeLivePosition, s2SC, s2Config, s2Details]

end Hls
